import Mathlib

/-!
Verification of the Power+ calculator backend (`api_server.py`).

The shallow embedding below translates the Python source into Lean:

* Python floats become exact rationals (`ℚ`); a value that may be
  `None`/`NaN` becomes `Option ℚ` (`none` models both `None` and `NaN`,
  which `pd.isna` treats alike).
* `round(x, 1)` becomes `round1`, round-half-to-even at one decimal
  place on exact rationals.
* A pandas `DataFrame` becomes a list of column names together with a
  list of rows; a cell is `Option ℚ` (`none` = missing/NaN).
* The on-disk JSON cache becomes `CacheFile` (missing, corrupt, or an
  entry with an integer timestamp in seconds and a dataset); clock
  reads (`datetime.now()`) become an explicit `now : ℤ` parameter and
  `timedelta(hours=6)` becomes `6 * 60 * 60` seconds.
* The network fetch becomes an explicit `fetched : Option DataFrame`
  parameter of `get_data` (`none` models any transport error, non-200
  status, or unparsable payload, all of which make
  `fetch_baseball_savant_data` return `None`).
* A Python expression that can raise (the endpoint comprehensions
  comparing a possibly-`None` value to an int) is modelled in `Option`,
  with `none` standing for the raised `TypeError`.
-/

/-- Models Python `str.lower` on a single character (the column names in
play are ASCII, where CPython's `lower` is exactly the A–Z shift). -/
def charLower (c : Char) : Char :=
  if 'A' ≤ c ∧ c ≤ 'Z' then Char.ofNat (c.toNat + 32) else c

/-- Models Python `str.lower`. -/
def lowerStr (s : String) : String := ⟨s.data.map charLower⟩

/-- Helper for `listSub`: does the first list start the second? -/
def listPre : List Char → List Char → Bool
  | [], _ => true
  | _ :: _, [] => false
  | a :: as, b :: bs => a == b && listPre as bs

/-- Contiguous-sublist test on character lists. -/
def listSub (needle : List Char) : List Char → Bool
  | [] => needle.isEmpty
  | b :: bs => listPre needle (b :: bs) || listSub needle bs

/-- Models Python `needle in hay` on strings (substring containment). -/
def strContains (hay needle : String) : Bool := listSub needle.data hay.data

/-- Source constant `LEAGUE_AVG_BAT_SPEED = 72.0`. -/
def LEAGUE_AVG_BAT_SPEED : ℚ := 72

/-- Source constant `LEAGUE_AVG_SWING_LENGTH = 7.3`. -/
def LEAGUE_AVG_SWING_LENGTH : ℚ := 7.3

/-- Source constant `LEAGUE_AVG_EFFICIENCY = LEAGUE_AVG_BAT_SPEED / LEAGUE_AVG_SWING_LENGTH`. -/
def LEAGUE_AVG_EFFICIENCY : ℚ := LEAGUE_AVG_BAT_SPEED / LEAGUE_AVG_SWING_LENGTH

/-- Source constant `CACHE_DURATION = timedelta(hours=6)`, in seconds. -/
def CACHE_DURATION : ℤ := 6 * 60 * 60

/-- Round-half-to-even to the nearest integer (Python's rounding mode),
on exact rationals. -/
def roundHalfEven (x : ℚ) : ℤ :=
  if x - ⌊x⌋ < 1 / 2 then ⌊x⌋
  else if 1 / 2 < x - ⌊x⌋ then ⌊x⌋ + 1
  else if ⌊x⌋ % 2 = 0 then ⌊x⌋ else ⌊x⌋ + 1

/-- Models Python `round(x, 1)` on exact rationals. -/
def round1 (x : ℚ) : ℚ := (roundHalfEven (x * 10) : ℚ) / 10

/-- Source `calculate_power_plus(bat_speed, swing_length)`: returns
`None` when `swing_length == 0` or either input is `None`/NaN,
otherwise `round((bat_speed / swing_length) / LEAGUE_AVG_EFFICIENCY * 100, 1)`. -/
def calculate_power_plus (bat_speed swing_length : Option ℚ) : Option ℚ :=
  match swing_length, bat_speed with
  | some sl, some bs =>
    if sl = 0 then none
    else some (round1 (bs / sl / LEAGUE_AVG_EFFICIENCY * 100))
  | _, _ => none

/-- Source `get_grade(power_plus)`: `"N/A"` on `None`/NaN, else the
descending threshold chain 110/105/95/90. -/
def get_grade (power_plus : Option ℚ) : String :=
  match power_plus with
  | none => "N/A"
  | some p =>
    if p ≥ 110 then "Elite"
    else if p ≥ 105 then "Above Average"
    else if p ≥ 95 then "Average"
    else if p ≥ 90 then "Below Average"
    else "Poor"

/-- Model of a pandas `DataFrame`: ordered column names and rows of
cells, a cell being a rational or missing/NaN. -/
structure DataFrame where
  cols : List String
  rows : List (List (Option ℚ))
  deriving DecidableEq

/-- Cell of a row at a column index (out-of-range reads as missing). -/
def cellAt (r : List (Option ℚ)) (i : ℕ) : Option ℚ := r.getD i none

/-- Position of a column name in the column list. -/
def colIdx (cols : List String) (c : String) : ℕ := cols.findIdx (fun x => x = c)

/-- Models the pandas column assignment `df[name] = series`, where the
series value for each row is computed from that row of the old frame:
replaces the column if the name exists, else appends it on the right. -/
def colAssign (df : DataFrame) (name : String) (f : List (Option ℚ) → Option ℚ) : DataFrame :=
  if name ∈ df.cols then
    ⟨df.cols, df.rows.map (fun r => r.set (colIdx df.cols name) (f r))⟩
  else
    ⟨df.cols ++ [name], df.rows.map (fun r => r ++ [f r])⟩

/-- Source `process_data`, step 1: `[c for c in df.columns if 'bat_speed'
in c.lower()]` followed by `speed_cols[0] if speed_cols else None`. -/
def speedColOf (cols : List String) : Option String :=
  (cols.filter (fun c => strContains (lowerStr c) ("bat_speed"))).head?

/-- Source `process_data`, step 2: first column whose lowercased name
contains `"swing_length"`, if any. -/
def lengthColOf (cols : List String) : Option String :=
  (cols.filter (fun c => strContains (lowerStr c) ("swing_length"))).head?

/-- Source `process_data(df)`: resolve the two columns by substring
(abort with an empty frame if either is missing), `dropna` on them,
assign numeric `bat_speed` / `swing_length` columns (`pd.to_numeric` is
the identity on cells that are already numeric-or-missing), then assign
the `power_plus` column row-wise via `calculate_power_plus`. -/
def process_data (df : DataFrame) : DataFrame :=
  match speedColOf df.cols, lengthColOf df.cols with
  | some speed_col, some length_col =>
    let si := colIdx df.cols speed_col
    let li := colIdx df.cols length_col
    let df1 : DataFrame :=
      ⟨df.cols, df.rows.filter (fun r => (cellAt r si).isSome && (cellAt r li).isSome)⟩
    let df2 := colAssign df1 ("bat_speed") (fun r => cellAt r si)
    let df3 := colAssign df2 ("swing_length") (fun r => cellAt r li)
    let bi := colIdx df3.cols ("bat_speed")
    let wi := colIdx df3.cols ("swing_length")
    colAssign df3 ("power_plus") (fun r => calculate_power_plus (cellAt r bi) (cellAt r wi))
  | _, _ => ⟨[], []⟩

/-- One row of the server's JSON payload: field names with
rational-or-null values. -/
abbrev PlayerRecord := List (String × Option ℚ)

/-- The processed dataset as served and cached (`df.to_dict('records')`). -/
abbrev Dataset := List PlayerRecord

/-- State of the on-disk cache file `data_cache.json`: absent, present
but unreadable/unparsable, or a parsed `{timestamp, data}` entry. -/
inductive CacheFile where
  | missing
  | corrupt
  | entry (ts : ℤ) (data : Dataset)
  deriving DecidableEq

/-- Source `load_cached_data()`: `None` if the file is missing, raises
(caught, `None`) if unreadable, else returns the data only when
`datetime.now() - cache_time < CACHE_DURATION`. -/
def load_cached_data (file : CacheFile) (now : ℤ) : Option Dataset :=
  match file with
  | .missing => none
  | .corrupt => none
  | .entry ts data => if now - ts < CACHE_DURATION then some data else none

/-- Source `save_to_cache(data)`: overwrite the slot with
`{timestamp: now, data}`. -/
def save_to_cache (data : Dataset) (now : ℤ) : CacheFile := .entry now data

/-- Result of `get_data`: a dataset, or the `{"error": "No data
available"}` payload. -/
inductive GetDataResult where
  | data (d : Dataset)
  | error
  deriving DecidableEq

/-- Models pandas `df.empty`: true when either axis has length zero. -/
def dfEmpty (df : DataFrame) : Bool := df.rows.isEmpty || df.cols.isEmpty

/-- Models `df.to_dict('records')` (after the NaN→`None` `replace`,
which is the identity on cells already modelled as `Option ℚ`). -/
def to_records (df : DataFrame) : Dataset := df.rows.map (fun r => df.cols.zip r)

/-- Models Python truthiness of `load_cached_data`'s result (`if
cached:`): false on `None` and on an empty list. -/
def truthy (cached : Option Dataset) : Bool :=
  match cached with
  | some d => !d.isEmpty
  | none => false

/-- Source `get_data`, fallback branch shared by both failure paths:
`cached = load_cached_data(); return cached if cached else
{"error": "No data available"}`. -/
def fallback_result (file : CacheFile) (now : ℤ) : GetDataResult :=
  match load_cached_data file now with
  | some cached => if cached.isEmpty then .error else .data cached
  | none => .error

/-- Source `get_data`, from the `fetch_baseball_savant_data()` call on:
on a failed fetch (`df is None`) or an empty raw frame (`df.empty`),
fall back; otherwise process, serialize, cache, and return. The third
component counts the fetch invocations this call performed (here 1). -/
def get_data_fetch (file : CacheFile) (now : ℤ) (fetched : Option DataFrame) :
    GetDataResult × CacheFile × ℕ :=
  match fetched with
  | none => (fallback_result file now, file, 1)
  | some df =>
    if dfEmpty df then (fallback_result file now, file, 1)
    else
      (GetDataResult.data (to_records (process_data df)),
        save_to_cache (to_records (process_data df)) now, 1)

/-- Source `get_data(force_refresh=False)`: unless forced, serve a
truthy fresh cache load directly (0 fetches); otherwise run the fetch
path. Returns the result, the cache file afterwards, and how many times
this call invoked the Source Fetcher. -/
def get_data (force_refresh : Bool) (file : CacheFile) (now : ℤ)
    (fetched : Option DataFrame) : GetDataResult × CacheFile × ℕ :=
  match (if force_refresh then none else load_cached_data file now) with
  | some cached =>
    if cached.isEmpty then get_data_fetch file now fetched
    else (GetDataResult.data cached, file, 0)
  | none => get_data_fetch file now fetched

/-- Models N queries arriving simultaneously against one cache state:
the source has no cross-request coordination (no lock and no in-flight
flag), so in the simultaneous interleaving every caller reads the same
pre-refresh cache state and performs its own fetches; the total number
of Source Fetcher invocations is the sum over the callers. -/
def herd_fetches (n : ℕ) (file : CacheFile) (now : ℤ) (fetched : Option DataFrame) : ℕ :=
  n * (get_data false file now fetched).2.2

/-- Models Python `p.get(key, 0)` on a record: the default applies only
when the key is absent; a key present with value `None` yields `None`
(the outer `Option` is the JSON value, `none` = Python `None`). -/
def recGet (p : PlayerRecord) (key : String) (dflt : ℚ) : Option ℚ :=
  match p.lookup key with
  | some v => v
  | none => some dflt

/-- Models the Python comparison `v >= t` where `v` may be `None`:
`none` is the raised `TypeError`. -/
def pyGe (v : Option ℚ) (t : ℚ) : Option Bool := v.map (fun x => decide (t ≤ x))

/-- Models a Python list comprehension whose predicate may raise:
`none` propagates the first exception. -/
def pyFilter {α : Type} (f : α → Option Bool) : List α → Option (List α)
  | [] => some []
  | a :: as =>
    match f a with
    | none => none
    | some b => (pyFilter f as).map (fun l => if b then a :: l else l)

/-- Source `get_qualified_players` body: `[p for p in data if
p.get('swings', 0) >= 300]` (`none` = the request raises). -/
def get_qualified_players (data : Dataset) : Option Dataset :=
  pyFilter (fun p => pyGe (recGet p ("swings") 0) 300) data

/-- Source `get_elite_players` body: `[p for p in data if
p.get('power_plus', 0) >= 110]` (`none` = the request raises). -/
def get_elite_players (data : Dataset) : Option Dataset :=
  pyFilter (fun p => pyGe (recGet p ("power_plus") 0) 110) data

lemma le_roundHalfEven (x : ℚ) : ⌊x⌋ ≤ roundHalfEven x := by
  unfold roundHalfEven; split_ifs <;> omega

lemma roundHalfEven_le (x : ℚ) : roundHalfEven x ≤ ⌊x⌋ + 1 := by
  unfold roundHalfEven; split_ifs <;> omega

lemma roundHalfEven_mono {x y : ℚ} (h : x ≤ y) : roundHalfEven x ≤ roundHalfEven y := by
  rcases lt_or_le ⌊x⌋ ⌊y⌋ with hf | hf
  · have h1 := roundHalfEven_le x
    have h2 := le_roundHalfEven y
    omega
  · have he : ⌊x⌋ = ⌊y⌋ := le_antisymm (Int.floor_mono h) hf
    unfold roundHalfEven
    rw [he]
    split_ifs <;> first | omega | linarith

lemma round1_mono {x y : ℚ} (h : x ≤ y) : round1 x ≤ round1 y := by
  unfold round1
  have hm : roundHalfEven (x * 10) ≤ roundHalfEven (y * 10) :=
    roundHalfEven_mono (mul_le_mul_of_nonneg_right h (by norm_num))
  exact (div_le_div_iff_of_pos_right (by norm_num)).mpr (by exact_mod_cast hm)

/-- C2 (amended): `calculate_power_plus` returns the rounded formula
value iff `swing_length ≠ 0` and both inputs are non-null/non-NaN (not
iff `swing_length > 0`: a negative `swing_length` also yields a computed
value); a null/NaN input or a zero `swing_length` yields null. -/
theorem calculate_power_plus_characterization (bs sl : Option ℚ) :
    (bs = none ∨ sl = none ∨ sl = some 0 → calculate_power_plus bs sl = none) ∧
    (∀ b s, bs = some b → sl = some s → s ≠ 0 →
      calculate_power_plus bs sl = some (round1 (b / s / LEAGUE_AVG_EFFICIENCY * 100))) := by
  constructor
  · rintro (rfl | rfl | rfl)
    · cases sl <;> rfl
    · rfl
    · cases bs <;> simp [calculate_power_plus]
  · rintro b s rfl rfl hs
    simp [calculate_power_plus, hs]

/-- C2 witness: at `bat_speed = 72`, `swing_length = 7.3` the formula
branch applies, and a null `bat_speed` yields null. -/
theorem calculate_power_plus_characterization_witness :
    calculate_power_plus (some 72) (some 7.3) =
        some (round1 ((72 : ℚ) / 7.3 / LEAGUE_AVG_EFFICIENCY * 100)) ∧
      calculate_power_plus none (some 7.3) = none :=
  ⟨(calculate_power_plus_characterization (some 72) (some 7.3)).2 72 7.3 rfl rfl (by norm_num),
    (calculate_power_plus_characterization none (some 7.3)).1 (Or.inl rfl)⟩

/-- C2 counterexample: `swing_length = -7.3` is not `> 0`, yet
`calculate_power_plus` returns the computed value `-100.0`, not null,
refuting the claimed "null in every other case". -/
theorem calculate_power_plus_negative_length :
    calculate_power_plus (some 72) (some (-7.3)) = some (-100) ∧ ¬ ((-7.3 : ℚ) > 0) := by
  constructor
  · norm_num [calculate_power_plus, round1, roundHalfEven, LEAGUE_AVG_EFFICIENCY,
      LEAGUE_AVG_BAT_SPEED, LEAGUE_AVG_SWING_LENGTH]
  · norm_num

/-- C3: `get_grade` maps by descending inclusive-lower-bound thresholds
(Elite from 110, Above Average from 105, Average from 95, Below Average
from 90, else Poor), hits the spec's boundary examples exactly, and maps
null/NaN to `"N/A"`. -/
theorem get_grade_thresholds :
    (∀ p : ℚ, 110 ≤ p → get_grade (some p) = "Elite") ∧
    (∀ p : ℚ, 105 ≤ p → p < 110 → get_grade (some p) = "Above Average") ∧
    (∀ p : ℚ, 95 ≤ p → p < 105 → get_grade (some p) = "Average") ∧
    (∀ p : ℚ, 90 ≤ p → p < 95 → get_grade (some p) = "Below Average") ∧
    (∀ p : ℚ, p < 90 → get_grade (some p) = "Poor") ∧
    get_grade (some 110) = "Elite" ∧
    get_grade (some 109.9) = "Above Average" ∧ get_grade (some 105) = "Above Average" ∧
    get_grade (some 104.9) = "Average" ∧ get_grade (some 95) = "Average" ∧
    get_grade (some 94.9) = "Below Average" ∧ get_grade (some 90) = "Below Average" ∧
    get_grade (some 89.9) = "Poor" ∧
    get_grade none = "N/A" := by
  refine ⟨fun p h => ?_, fun p h h' => ?_, fun p h h' => ?_, fun p h h' => ?_, fun p h => ?_,
    ?_, ?_, ?_, ?_, ?_, ?_, ?_, ?_, rfl⟩
  · simp only [get_grade]
    rw [if_pos (by linarith)]
  · simp only [get_grade]
    rw [if_neg (by linarith), if_pos (by linarith)]
  · simp only [get_grade]
    rw [if_neg (by linarith), if_neg (by linarith), if_pos (by linarith)]
  · simp only [get_grade]
    rw [if_neg (by linarith), if_neg (by linarith), if_neg (by linarith), if_pos (by linarith)]
  · simp only [get_grade]
    rw [if_neg (by linarith), if_neg (by linarith), if_neg (by linarith), if_neg (by linarith)]
  all_goals norm_num [get_grade]

/-- C3 witness: the Elite band applied at the concrete value 120. -/
theorem get_grade_thresholds_witness : get_grade (some 120) = "Elite" :=
  get_grade_thresholds.1 120 (by norm_num)

/-- C9: for fixed `swing_length > 0`, `calculate_power_plus` is total on
numeric inputs, deterministic, returns a one-decimal value (an integer
multiple of 1/10), and is monotonically increasing in `bat_speed`. -/
theorem calculate_power_plus_mono (bs1 bs2 sl : ℚ) (hsl : 0 < sl) (hb : bs1 ≤ bs2) :
    ∃ v1 v2 : ℚ,
      calculate_power_plus (some bs1) (some sl) = some v1 ∧
      calculate_power_plus (some bs2) (some sl) = some v2 ∧
      v1 ≤ v2 ∧ (∃ k : ℤ, v1 = (k : ℚ) / 10) ∧ (∃ k : ℤ, v2 = (k : ℚ) / 10) ∧
      (bs1 = bs2 → v1 = v2) := by
  have hsl' : sl ≠ 0 := ne_of_gt hsl
  refine ⟨round1 (bs1 / sl / LEAGUE_AVG_EFFICIENCY * 100),
    round1 (bs2 / sl / LEAGUE_AVG_EFFICIENCY * 100), ?_, ?_, ?_,
    ⟨roundHalfEven (bs1 / sl / LEAGUE_AVG_EFFICIENCY * 100 * 10), rfl⟩,
    ⟨roundHalfEven (bs2 / sl / LEAGUE_AVG_EFFICIENCY * 100 * 10), rfl⟩, ?_⟩
  · simp [calculate_power_plus, hsl']
  · simp [calculate_power_plus, hsl']
  · apply round1_mono
    have hE : 0 < LEAGUE_AVG_EFFICIENCY := by
      norm_num [LEAGUE_AVG_EFFICIENCY, LEAGUE_AVG_BAT_SPEED, LEAGUE_AVG_SWING_LENGTH]
    have h1 : bs1 / sl ≤ bs2 / sl := (div_le_div_iff_of_pos_right hsl).mpr hb
    have h2 : bs1 / sl / LEAGUE_AVG_EFFICIENCY ≤ bs2 / sl / LEAGUE_AVG_EFFICIENCY :=
      (div_le_div_iff_of_pos_right hE).mpr h1
    exact mul_le_mul_of_nonneg_right h2 (by norm_num)
  · intro he
    rw [he]

/-- C9 witness: at `bat_speed` 70 ≤ 72 and `swing_length = 7.3`. -/
theorem calculate_power_plus_mono_witness :
    ∃ v1 v2 : ℚ,
      calculate_power_plus (some 70) (some 7.3) = some v1 ∧
      calculate_power_plus (some 72) (some 7.3) = some v2 ∧
      v1 ≤ v2 ∧ (∃ k : ℤ, v1 = (k : ℚ) / 10) ∧ (∃ k : ℤ, v2 = (k : ℚ) / 10) ∧
      ((70 : ℚ) = 72 → v1 = v2) :=
  calculate_power_plus_mono 70 72 7.3 (by norm_num) (by norm_num)

lemma filter_head_eq_find {α : Type} (p : α → Bool) (l : List α) :
    (l.filter p).head? = l.find? p := by
  induction l with
  | nil => rfl
  | cons a as ih =>
    by_cases h : p a
    · simp [List.filter_cons, List.find?_cons_of_pos _ h, h]
    · simp [List.filter_cons, List.find?_cons_of_neg _ h, h, ih]

lemma colAssign_rows_length (df : DataFrame) (name : String)
    (f : List (Option ℚ) → Option ℚ) : ((colAssign df name f).rows).length = df.rows.length := by
  unfold colAssign
  split_ifs <;> simp

lemma colAssign_cols_mem {a : String} {df : DataFrame} {name : String}
    {f : List (Option ℚ) → Option ℚ} (h : a ∈ (colAssign df name f).cols) :
    a ∈ df.cols ∨ a = name := by
  unfold colAssign at h
  split_ifs at h
  · exact Or.inl h
  · simp only [List.mem_append, List.mem_singleton] at h
    exact h

/-- C6: column resolution picks the first column (in source order) whose
lowercased name contains `"bat_speed"`, independently the first
containing `"swing_length"`; on the spec's example schema it picks
`"bat_speed_mph"` and `"swing_length_ft"`; and if either substring
matches no column, `process_data` aborts with an empty frame instead of
processing any record. -/
theorem column_resolution_policy :
    speedColOf ["bat_speed_mph", "avg_bat_speed", "swing_length_ft"] = some ("bat_speed_mph") ∧
    lengthColOf ["bat_speed_mph", "avg_bat_speed", "swing_length_ft"] =
      some ("swing_length_ft") ∧
    (∀ cols : List String,
      speedColOf cols = cols.find? (fun c => strContains (lowerStr c) ("bat_speed"))) ∧
    (∀ cols : List String,
      lengthColOf cols = cols.find? (fun c => strContains (lowerStr c) ("swing_length"))) ∧
    (∀ df : DataFrame, speedColOf df.cols = none ∨ lengthColOf df.cols = none →
      process_data df = ⟨[], []⟩) := by
  refine ⟨by decide, by decide, fun cols => filter_head_eq_find _ cols,
    fun cols => filter_head_eq_find _ cols, fun df h => ?_⟩
  rcases h with h | h
  · simp [process_data, h]
  · cases hs : speedColOf df.cols <;> simp [process_data, hs, h]

/-- C6 witness: the abort branch applied to a schema with no matching
column. -/
theorem column_resolution_policy_witness :
    process_data ⟨["player_name"], [[some 1]]⟩ = ⟨[], []⟩ :=
  column_resolution_policy.2.2.2.2 ⟨["player_name"], [[some 1]]⟩ (Or.inl (by decide))

/-- C4 counterexample: a raw row whose `bat_speed` cell is missing is
dropped by `process_data` (the `dropna` on the resolved columns), so the
produced Dataset contains no record for it — refuting the claim that
such a row is kept with a null metric. -/
theorem process_data_drops_missing_row :
    (process_data ⟨["bat_speed", "swing_length"], [[none, some 7]]⟩).rows = [] := by decide

/-- C4 (amended): when both columns resolve, `process_data` keeps
exactly the source rows in which both resolved cells are present (rows
with a missing `bat_speed` or `swing_length` value are removed, all
others are kept and enriched). -/
theorem process_data_row_count (df : DataFrame) (sc lc : String)
    (hs : speedColOf df.cols = some sc) (hl : lengthColOf df.cols = some lc) :
    (process_data df).rows.length =
      (df.rows.filter (fun r =>
        (cellAt r (colIdx df.cols sc)).isSome &&
        (cellAt r (colIdx df.cols lc)).isSome)).length := by
  unfold process_data
  rw [hs, hl]
  dsimp only
  rw [colAssign_rows_length, colAssign_rows_length, colAssign_rows_length]

/-- C4 witness: of two raw rows, the complete one is kept and the one
with a missing `bat_speed` is dropped. -/
theorem process_data_row_count_witness :
    (process_data ⟨["bat_speed", "swing_length"],
        [[some 72, some 8], [none, some 8]]⟩).rows.length =
      ((⟨["bat_speed", "swing_length"], [[some 72, some 8], [none, some 8]]⟩ :
          DataFrame).rows.filter (fun r =>
        (cellAt r (colIdx ["bat_speed", "swing_length"] ("bat_speed"))).isSome &&
        (cellAt r (colIdx ["bat_speed", "swing_length"] ("swing_length"))).isSome)).length :=
  process_data_row_count ⟨["bat_speed", "swing_length"], [[some 72, some 8], [none, some 8]]⟩
    ("bat_speed") ("swing_length") (by decide) (by decide)

/-- C5 counterexample: on a well-formed raw frame, `process_data`
produces a record (one output row) whose fields are only the source
columns plus `bat_speed`, `swing_length`, `power_plus` — no `grade`
field exists, refuting the claim that every record carries one. -/
theorem process_data_record_without_grade :
    ¬ (("grade") ∈ (process_data ⟨["bat_speed", "swing_length"], [[some 72, some 8]]⟩).cols) ∧
    (process_data ⟨["bat_speed", "swing_length"], [[some 72, some 8]]⟩).rows.length = 1 := by
  exact ⟨by decide, by decide⟩

/-- C5 (amended): `process_data` never attaches a `grade` field: if the
raw frame has no `grade` column, neither does its output (the function
`get_grade` exists in the source but is never invoked by the pipeline). -/
theorem process_data_no_grade_column (df : DataFrame) (h : ¬ (("grade") ∈ df.cols)) :
    ¬ (("grade") ∈ (process_data df).cols) := by
  unfold process_data
  cases hs : speedColOf df.cols with
  | none => cases hl : lengthColOf df.cols <;> dsimp only <;> simp
  | some sc =>
    cases hl : lengthColOf df.cols with
    | none => dsimp only; simp
    | some lc =>
      dsimp only
      intro hmem
      rcases colAssign_cols_mem hmem with hmem | hmem
      · rcases colAssign_cols_mem hmem with hmem | hmem
        · rcases colAssign_cols_mem hmem with hmem | hmem
          · exact h hmem
          · exact absurd hmem (by decide)
        · exact absurd hmem (by decide)
      · exact absurd hmem (by decide)

/-- C5 witness: a frame whose schema lacks `grade` yields an output
schema lacking `grade`. -/
theorem process_data_no_grade_column_witness :
    ¬ (("grade") ∈ (process_data ⟨["bat_speed", "swing_length"],
        ([] : List (List (Option ℚ)))⟩).cols) :=
  process_data_no_grade_column ⟨["bat_speed", "swing_length"], []⟩ (by decide)

/-- C8: `load_cached_data` returns the persisted Dataset iff the cache
file exists, parses, and `now - timestamp` is strictly below the 6-hour
TTL; an entry one second past the TTL, a missing file, and a corrupt
file all yield `None`, never partial data. -/
theorem load_cached_data_spec (file : CacheFile) (now : ℤ) (d : Dataset) :
    (load_cached_data file now = some d ↔
      ∃ ts, file = CacheFile.entry ts d ∧ now - ts < CACHE_DURATION) ∧
    load_cached_data (CacheFile.entry 0 d) (CACHE_DURATION + 1) = none ∧
    load_cached_data CacheFile.missing now = none ∧
    load_cached_data CacheFile.corrupt now = none := by
  refine ⟨?_, ?_, rfl, rfl⟩
  · cases file with
    | missing => simp [load_cached_data]
    | corrupt => simp [load_cached_data]
    | entry ts dd =>
      simp only [load_cached_data]
      split_ifs with hf
      · constructor
        · intro he
          exact ⟨ts, by rw [Option.some_inj.mp he], hf⟩
        · rintro ⟨ts', he, hlt⟩
          injection he with h1 h2
          subst h1
          subst h2
          rfl
      · constructor
        · intro he
          simp at he
        · rintro ⟨ts', he, hlt⟩
          injection he with h1 h2
          subst h1
          exact absurd hlt hf
  · norm_num [load_cached_data, CACHE_DURATION]

/-- C1 counterexample: the fetch fails while a prior CacheEntry exactly
TTL old (stale) holds a nonempty Dataset; `get_data` returns the error
payload, not the stale Dataset — refuting the claimed stale fallback. -/
theorem get_data_stale_fallback_fails :
    (get_data false (CacheFile.entry 0 [[(("bat_speed"), some 72)]]) CACHE_DURATION none).1 =
      GetDataResult.error := by decide

/-- C1 (amended): on a failed or empty fetch, `get_data` (forced or
not) falls back through `load_cached_data`, which re-applies the 6-hour
TTL and Python truthiness: the cached Dataset is returned only when the
entry is fresh and nonempty; a stale, missing, corrupt, or empty entry
yields the `NoDataAvailable` error. -/
theorem get_data_fallback (force : Bool) (file : CacheFile) (now : ℤ)
    (fetched : Option DataFrame)
    (hfail : fetched = none ∨ ∃ df, fetched = some df ∧ dfEmpty df = true) :
    (get_data force file now fetched).1 = fallback_result file now ∧
    (load_cached_data file now = none →
      (get_data force file now fetched).1 = GetDataResult.error) := by
  have hfetch : (get_data_fetch file now fetched).1 = fallback_result file now := by
    rcases hfail with rfl | ⟨df, rfl, he⟩
    · rfl
    · simp [get_data_fetch, he]
  have main : (get_data force file now fetched).1 = fallback_result file now := by
    cases force with
    | true => exact hfetch
    | false =>
      unfold get_data
      cases hl : load_cached_data file now with
      | none => exact hfetch
      | some c =>
        show (if c.isEmpty then get_data_fetch file now fetched
            else (GetDataResult.data c, file, 0)).1 = fallback_result file now
        cases hc : c.isEmpty with
        | true => simp [hc, hfetch]
        | false => simp [hc, fallback_result, hl]
  refine ⟨main, fun hnone => ?_⟩
  rw [main]
  simp [fallback_result, hnone]

/-- C1 witness: a forced refresh whose fetch fails, with a fresh
nonempty prior entry, falls back to that entry's Dataset. -/
theorem get_data_fallback_witness :
    (get_data true (CacheFile.entry 0 [[(("bat_speed"), some 72)]]) 100 none).1 =
        fallback_result (CacheFile.entry 0 [[(("bat_speed"), some 72)]]) 100 ∧
      fallback_result (CacheFile.entry 0 [[(("bat_speed"), some 72)]]) 100 =
        GetDataResult.data [[(("bat_speed"), some 72)]] :=
  ⟨(get_data_fallback true (CacheFile.entry 0 [[(("bat_speed"), some 72)]]) 100 none
      (Or.inl rfl)).1, by decide⟩

/-- C10 counterexample: two simultaneous queries against a stale cache
trigger two Source Fetcher invocations, not exactly one. -/
theorem herd_fetches_two :
    herd_fetches 2 (CacheFile.entry 0 [[(("swings"), some 300)]]) CACHE_DURATION none = 2 ∧
      (2 : ℕ) ≠ 1 := by
  exact ⟨by decide, by decide⟩

/-- C10 (amended): the source has no single-flight coordination: every
call whose cache check does not produce a truthy fresh dataset performs
its own fetch, so N simultaneous stale-cache queries trigger N Source
Fetcher invocations. -/
theorem herd_fetches_eq_n (n : ℕ) (file : CacheFile) (now : ℤ) (fetched : Option DataFrame)
    (hstale : truthy (load_cached_data file now) = false) :
    herd_fetches n file now fetched = n := by
  have hfc : ∀ fe, (get_data_fetch file now fe).2.2 = 1 := by
    intro fe
    cases fe with
    | none => rfl
    | some df => by_cases he : dfEmpty df <;> simp [get_data_fetch, he]
  have hone : (get_data false file now fetched).2.2 = 1 := by
    unfold get_data
    cases hl : load_cached_data file now with
    | none => exact hfc fetched
    | some c =>
      have hc : c.isEmpty = true := by
        simpa [truthy, hl] using hstale
      show (if c.isEmpty then get_data_fetch file now fetched
          else (GetDataResult.data c, file, 0)).2.2 = 1
      rw [hc]
      simpa using hfc fetched
  unfold herd_fetches
  rw [hone, Nat.mul_one]

/-- C10 witness: five simultaneous queries against a missing cache make
five fetcher invocations. -/
theorem herd_fetches_eq_n_witness : herd_fetches 5 CacheFile.missing 0 none = 5 :=
  herd_fetches_eq_n 5 CacheFile.missing 0 none (by decide)

/-- C7 (code evaluated at the failing input): a record whose
`power_plus` key holds a null makes the elite filter raise — modelled as
`none` — because `p.get('power_plus', 0)` only applies its default when
the key is absent, and `None >= 110` is a `TypeError`; on null-free data
both endpoints filter exactly as the claim says. -/
theorem elite_raises_on_null_power_plus :
    get_elite_players [[(("power_plus"), (none : Option ℚ))]] = none ∧
    get_elite_players [[(("power_plus"), some 120)], [(("power_plus"), some 100)]] =
      some [[(("power_plus"), some 120)]] ∧
    get_qualified_players [[(("swings"), some 500)], [(("swings"), some 100)]] =
      some [[(("swings"), some 500)]] := by
  exact ⟨by decide, by decide, by decide⟩
